import Mathlib

/-!
Shallow embedding of `custom_components/powercalc/sensors/group.py`
(grouped power / energy sensors of the powercalc Home Assistant integration).

The stateful entity classes become explicit state passing: each Python method
is a Lean function from the sensor state (plus the external registry, modelled
as a function) to the new sensor state together with the externally observable
actions (published value, outbound service calls, error-log entries).
Python `Decimal` values are modelled as `Rat` (decimal strings denote exact
rationals, and `decimal` arithmetic on them is exact at these sizes); a string
that the `Decimal` constructor rejects is modelled by an explicit constructor.
-/

unseal Rat.add Rat.mul Rat.inv Rat.sub Rat.ofScientific

namespace Powercalc

/-- Models the Python string held in a Home Assistant `State.state` field.
`num q` is a string that Python's `decimal.Decimal` constructor parses as the
exact (finite) decimal number `q`; `unavailable` / `unknown` are the
`STATE_UNAVAILABLE` / `STATE_UNKNOWN` marker strings from `homeassistant.const`;
`unparseable s` is any other string, on which the `Decimal` constructor raises
`decimal.InvalidOperation`. -/
inductive StateStr where
  | unavailable
  | unknown
  | num (q : Rat)
  | unparseable (s : String)
deriving DecidableEq

/-- The fields of a Home Assistant `State` object that `group.py` reads:
`state.state` (the value string) and
`state.attributes.get(ATTR_UNIT_OF_MEASUREMENT)` (absent attribute = `none`). -/
structure StateBody where
  state : StateStr
  attrUnit : Option String
deriving DecidableEq

/-- A `State` paired with its entity id, as returned by
`hass.states.get(entity_id)`.  Home Assistant guarantees the returned state's
`entity_id` equals the lookup key, so the pair is formed at lookup time. -/
abbrev MemberState := String × StateBody

/-- `homeassistant.const.POWER_WATT` (external constant). -/
def POWER_WATT : String := "W"

/-- `homeassistant.const.ENERGY_WATT_HOUR` (external constant). -/
def ENERGY_WATT_HOUR : String := "Wh"

/-- `homeassistant.const.ENERGY_KILO_WATT_HOUR` (external constant). -/
def ENERGY_KILO_WATT_HOUR : String := "kWh"

/-- `homeassistant.const.ENERGY_MEGA_WATT_HOUR` (external constant). -/
def ENERGY_MEGA_WATT_HOUR : String := "MWh"

/-- Modelled from the spec: the integration's domain constant `DOMAIN` from
`custom_components/powercalc/const.py`, which is not under `src/`. -/
def DOMAIN : String := "powercalc"

/-- Modelled from the spec: the `SERVICE_RESET_ENERGY` service name from
`custom_components/powercalc/const.py`, which is not under `src/`. -/
def SERVICE_RESET_ENERGY : String := "reset_energy"

/-- Modelled from the spec: the UnitPrefix enum of
`custom_components/powercalc/const.py` (not under `src/`) with its three
members KILO, NONE and MEGA — the "three scale variants" of an energy
aggregate's unit.  Renamed here to avoid a clash with Lean keywords. -/
inductive EnergyScale where
  | kilo
  | noScale
  | mega
deriving DecidableEq

/-- The entries of the `sensor_config` dict that `group.py` reads, each
`none` when the key is absent (`dict.get` returns `None`).  Keys:
CONF_UNIQUE_ID, CONF_POWER_SENSOR_PRECISION, CONF_ENERGY_SENSOR_PRECISION,
CONF_ENERGY_SENSOR_UNIT_PREFIX. -/
structure SensorConfig where
  uniqueId : Option String := none
  powerSensorPrecision : Option Nat := none
  energySensorPrecision : Option Nat := none
  energySensorUnitScale : Option EnergyScale := none
deriving DecidableEq

/-- The dynamic type of `_attr_native_value`: a raw string after restoration
(line 185), a `Decimal` after `round(summed, n)` with an integer `n`, or a
Python `int` after `round(summed, None)` (line 212). -/
inductive NativeValue where
  | strVal (s : StateStr)
  | decVal (q : Rat)
  | intVal (z : Int)
deriving DecidableEq

/-- Round half to even to an integer: what Python's `round` does to a
`Decimal` when no digit count is given (the `decimal` default context uses
ROUND_HALF_EVEN). -/
def roundHalfEvenInt (q : Rat) : Int :=
  let f := q.floor
  if q - (f : Rat) < 1/2 then f
  else if (1/2 : Rat) < q - (f : Rat) then f + 1
  else if f % 2 = 0 then f else f + 1

/-- Round half to even to `n` fractional digits: Python `round(d, n)` on a
`Decimal` (quantize under the default ROUND_HALF_EVEN context rounding). -/
def roundHalfEvenRat (q : Rat) (n : Nat) : Rat :=
  ((roundHalfEvenInt (q * ((10 ^ n : Nat) : Rat)) : Int) : Rat) / ((10 ^ n : Nat) : Rat)

/-- Python `round(summed, self._rounding_digits)` at line 212.  With digit
count `None` Python returns the nearest `int`; with an integer digit count it
returns a `Decimal`. -/
def roundPy (q : Rat) : Option Nat → NativeValue
  | none => NativeValue.intVal (roundHalfEvenInt q)
  | some n => NativeValue.decVal (roundHalfEvenRat q n)

/-- State of a `GroupedSensor` instance (`group.py` lines 154-178), covering
both subclasses.  `unit` is `_attr_native_unit_of_measurement` (a class
attribute in Python, set per subclass, `none` on the base `SensorEntity`);
`nativeValue` is `_attr_native_value` (unset after construction);
`lastReset` is `_attr_last_reset` (used by the energy subclass only),
modelled as an abstract timestamp.  The published extra state attributes
`ATTR_ENTITIES` / `ATTR_IS_GROUP` alias `entities` / the constant `True` and
are not duplicated here. -/
structure GroupedSensor where
  name : String
  entities : List String
  entityId : String
  sensorConfig : SensorConfig
  uniqueId : Option String
  roundingDigits : Option Nat
  unit : Option String
  nativeValue : Option NativeValue
  lastReset : Option Nat
deriving DecidableEq

/-- `GroupedSensor.__init__` (lines 159-178).  The Python default for
`rounding_digits` is the int `2` (used only when the argument is not passed);
the factories always pass the config lookup, which may be `None`.  Python's
`if unique_id:` treats both `None` and the empty string as falsy, leaving the
attribute unset. -/
def GroupedSensor.init (name : String) (entities : List String) (entityId : String)
    (sensorConfig : SensorConfig) (uniqueId : Option String := none)
    (roundingDigits : Option Nat := some 2) : GroupedSensor :=
  { name := name
    entities := entities
    entityId := entityId
    sensorConfig := sensorConfig
    uniqueId := if uniqueId = some "" then none else uniqueId
    roundingDigits := roundingDigits
    unit := none
    nativeValue := none
    lastReset := none }

/-- `GroupedPowerSensor` (lines 216-221): as the base class, with the class
attribute `_attr_native_unit_of_measurement = POWER_WATT`. -/
def GroupedPowerSensor.init (name : String) (entities : List String) (entityId : String)
    (sensorConfig : SensorConfig) (uniqueId : Option String := none)
    (roundingDigits : Option Nat := some 2) : GroupedSensor :=
  { GroupedSensor.init name entities entityId sensorConfig uniqueId roundingDigits with
    unit := some POWER_WATT }

/-- The unit chosen by `GroupedEnergySensor.__init__` (lines 242-248) from
`sensor_config.get(CONF_ENERGY_SENSOR_UNIT_PREFIX)`; when the prefix matches
no branch the attribute stays unset. -/
def energyUnitOfScale : Option EnergyScale → Option String
  | some EnergyScale.kilo => some ENERGY_KILO_WATT_HOUR
  | some EnergyScale.noScale => some ENERGY_WATT_HOUR
  | some EnergyScale.mega => some ENERGY_MEGA_WATT_HOUR
  | none => none

/-- `GroupedEnergySensor.__init__` (lines 230-248): the base constructor, then
the unit-of-measurement selection by configured unit prefix. -/
def GroupedEnergySensor.init (name : String) (entities : List String) (entityId : String)
    (sensorConfig : SensorConfig) (uniqueId : Option String := none)
    (roundingDigits : Option Nat := some 2) : GroupedSensor :=
  { GroupedSensor.init name entities entityId sensorConfig uniqueId roundingDigits with
    unit := energyUnitOfScale sensorConfig.energySensorUnitScale }

/-- `create_grouped_power_sensor` (lines 105-125).  `name` and `entityId` are
produced by the external naming glue (`abstract.py`); the factory's own work is
passing `sensor_config.get(CONF_UNIQUE_ID)` and
`sensor_config.get(CONF_POWER_SENSOR_PRECISION)` to the constructor. -/
def create_grouped_power_sensor (name entityId : String) (sensor_config : SensorConfig)
    (power_sensor_ids : List String) : GroupedSensor :=
  GroupedPowerSensor.init name power_sensor_ids entityId sensor_config
    sensor_config.uniqueId sensor_config.powerSensorPrecision

/-- `create_grouped_energy_sensor` (lines 128-151): derives
`energy_unique_id = f"{unique_id}_energy"` when the configured unique id is
truthy, and passes `sensor_config.get(CONF_ENERGY_SENSOR_PRECISION)` as the
rounding digit count. -/
def create_grouped_energy_sensor (name entityId : String) (sensor_config : SensorConfig)
    (energy_sensor_ids : List String) : GroupedSensor :=
  let energy_unique_id : Option String :=
    match sensor_config.uniqueId with
    | some u => if u = "" then none else some (u ++ "_energy")
    | none => none
  GroupedEnergySensor.init name energy_sensor_ids entityId sensor_config
    energy_unique_id sensor_config.energySensorPrecision

/-- `async_added_to_hass` (lines 180-187), restoration part: when
`async_get_last_state()` returns a persisted state, its raw state string seeds
`_attr_native_value`; otherwise the attribute is left untouched.  The
registration of the state-change listener is an external subscription call and
has no effect on the sensor's own state. -/
def async_added_to_hass (s : GroupedSensor) (lastState : Option StateStr) : GroupedSensor :=
  match lastState with
  | some v => { s with nativeValue := some (NativeValue.strVal v) }
  | none => s

/-- The membership test `state.state not in (STATE_UNAVAILABLE, STATE_UNKNOWN)`
(negated), line 192. -/
def ignoredState : StateStr → Bool
  | StateStr.unavailable => true
  | StateStr.unknown => true
  | _ => false

/-- Lines 193-194: `all_states = [self.hass.states.get(entity_id) ...]` and
`states = list(filter(None, all_states))` — look every member up in the
registry and keep the present ones, in membership order. -/
def memberStates (entities : List String) (registry : String → Option StateBody) :
    List MemberState :=
  (entities.map (fun eid => (registry eid).map (fun b => (eid, b)))).filterMap id

/-- Lines 195-197: keep the states whose value string is not the
unavailable/unknown marker. -/
def availableStates (entities : List String) (registry : String → Option StateBody) :
    List MemberState :=
  (memberStates entities registry).filter (fun st => !(ignoredState st.2.state))

/-- The `for state in available_states:` loop of lines 201-208, which mutates
the list it iterates (`available_states.remove(state)`) and the membership list
(`self._entities.remove(state.entity_id)`).  CPython's list iterator keeps a
hidden index `k`: each pass yields element `k` of the *current* list and then
advances to `k+1`, so removing the current element shifts its successors left
and the element after a removed one is skipped.  `List.erase` is Python
`list.remove` (drop the first occurrence equal to the value; Home Assistant
`State.__eq__` compares the fields modelled in `MemberState`).  `fuel` is an
upper bound on the remaining passes: every call keeps `length - k ≤ fuel`, the
loop stops when `k` reaches the current length, and `k` grows by one per pass
while the length never grows, so `fuel = length` at the initial call suffices
and the fuel-exhausted branch coincides with the loop's own exit. -/
def pruneGo : Nat → Option String → List MemberState → List String → List String → Nat →
    List MemberState × List String × List String
  | 0, _, avail, ents, logs, _ => (avail, ents, logs)
  | fuel + 1, u, avail, ents, logs, k =>
    if h : k < avail.length then
      if (avail.get ⟨k, h⟩).2.attrUnit ≠ u then
        pruneGo fuel u (avail.erase (avail.get ⟨k, h⟩))
          (ents.erase (avail.get ⟨k, h⟩).1) (logs ++ [(avail.get ⟨k, h⟩).1]) (k + 1)
      else
        pruneGo fuel u avail ents logs (k + 1)
    else (avail, ents, logs)

/-- The unit-compatibility pass (lines 199-208) started on the freshly built
`available_states` list with hidden iterator index 0.  Returns the surviving
available states, the surviving membership list, and the entity ids logged at
error level. -/
def pruneMismatches (u : Option String) (avail : List MemberState) (ents : List String) :
    List MemberState × List String × List String :=
  pruneGo avail.length u avail ents [] 0

/-- `Decimal(state.state)` (line 210): parses the numeric strings exactly and
raises (here: `none`) on anything else. -/
def decimalParse : StateStr → Option Rat
  | StateStr.num q => some q
  | _ => none

/-- `sum(Decimal(state.state) for state in available_states)` (line 210): the
exact decimal sum, or `none` when some retained state's string does not parse
and the generator raises out of `sum` (Decimal addition is exact here, so the
summation order is immaterial to the value). -/
def sumDecimals : List MemberState → Option Rat
  | [] => some 0
  | st :: rest =>
    match decimalParse st.2.state, sumDecimals rest with
    | some q, some r => some (q + r)
    | _, _ => none

/-- The value published by `async_schedule_update_ha_state(True)` (line 213):
the new native value together with the `force_refresh=True` argument. -/
structure PublishAction where
  value : NativeValue
  forceRefresh : Bool
deriving DecidableEq

/-- The observable outcome of one `on_state_change` call: the sensor state
afterwards, the publish action (`none` when the summation raised and the
callback aborted before lines 212-213), and the entity ids logged at error
level by the unit-mismatch branch. -/
structure RecomputeResult where
  sensor : GroupedSensor
  publish : Option PublishAction
  errorLogs : List String
deriving DecidableEq

/-- Lines 199-213 of `on_state_change`, starting from the already computed
`available_states` list: the unit-compatibility pass, the decimal summation,
the single rounding, and the forced publish.  When the summation raises, the
membership removals already performed persist but `_attr_native_value` is not
assigned and nothing is published. -/
def recompute_from (s : GroupedSensor) (available_states : List MemberState) :
    RecomputeResult :=
  match sumDecimals (pruneMismatches s.unit available_states s.entities).1 with
  | none =>
    { sensor := { s with entities := (pruneMismatches s.unit available_states s.entities).2.1 }
      publish := none
      errorLogs := (pruneMismatches s.unit available_states s.entities).2.2 }
  | some summed =>
    { sensor := { s with entities := (pruneMismatches s.unit available_states s.entities).2.1,
                         nativeValue := some (roundPy summed s.roundingDigits) }
      publish := some { value := roundPy summed s.roundingDigits, forceRefresh := true }
      errorLogs := (pruneMismatches s.unit available_states s.entities).2.2 }

/-- `GroupedSensor.on_state_change` (lines 189-213): one full recomputation
against the registry snapshot `registry`. -/
def on_state_change (s : GroupedSensor) (registry : String → Option StateBody) :
    RecomputeResult :=
  recompute_from s (availableStates s.entities registry)

/-- One outbound `hass.services.async_call` (lines 255-260). -/
structure ServiceCall where
  domain : String
  service : String
  targetEntityId : String
deriving DecidableEq

/-- The observable outcome of `async_reset_energy`: the sensor state
afterwards, the outbound fire-and-forget service calls (as data — their
outcomes cannot flow back into this function), and whether
`async_write_ha_state` was called. -/
structure ResetResult where
  sensor : GroupedSensor
  commands : List ServiceCall
  wrote : Bool
deriving DecidableEq

/-- `GroupedEnergySensor.async_reset_energy` (lines 250-263): one reset
service call per current member, in membership order, created as detached
tasks; then `_attr_last_reset = dt_util.utcnow()` and a synchronous state
write, unconditionally. -/
def async_reset_energy (s : GroupedSensor) (now : Nat) : ResetResult :=
  { sensor := { s with lastReset := some now }
    commands := s.entities.map (fun eid =>
      { domain := DOMAIN, service := SERVICE_RESET_ENERGY, targetEntityId := eid })
    wrote := true }

/-- A candidate entity as seen by `_get_filtered_entity_ids_by_class`: its
`entity_id` and whether it `isinstance(elm, GroupedSensor)`. The capability
class (`PowerSensor` / `EnergySensor`) is passed as a runtime value in Python,
so the `isinstance(elm, className)` test is modelled as a predicate argument. -/
structure PoolEntity where
  entityId : String
  isGroupedSensor : Bool
deriving DecidableEq

/-- `_get_filtered_entity_ids_by_class` (lines 64-80): copy the caller's
filter list, append the not-a-group filter and the capability filter, keep the
candidates passing all filters, and map them to their entity ids. -/
def get_filtered_entity_ids_by_class (all_entities : List PoolEntity)
    (default_filters : List (PoolEntity → Bool)) (className : PoolEntity → Bool) :
    List String :=
  let filters := default_filters ++ [fun elm => !elm.isGroupedSensor, fun elm => className elm]
  (all_entities.filter (fun x => filters.all (fun f => f x))).map PoolEntity.entityId

end Powercalc


namespace Powercalc

/-! ### Helper lemmas about the unit-compatibility pass -/

/-- The membership list coming out of the unit-compatibility pass is a
subsequence of the one going in: the loop only ever applies `List.erase`. -/
theorem pruneGo_entities_sublist (fuel : Nat) :
    ∀ (u : Option String) (avail : List MemberState) (ents logs : List String) (k : Nat),
    List.Sublist (pruneGo fuel u avail ents logs k).2.1 ents := by
  induction fuel with
  | zero =>
    intro u avail ents logs k
    exact List.Sublist.refl ents
  | succ n ih =>
    intro u avail ents logs k
    rw [pruneGo]
    split
    · split
      · exact (ih _ _ _ _ _).trans (List.erase_sublist _ _)
      · exact ih _ _ _ _ _
    · exact List.Sublist.refl ents

/-- A member that never occurs as the entity id of any available state is not
removed by the unit-compatibility pass. -/
theorem pruneGo_keeps_member (fuel : Nat) :
    ∀ (u : Option String) (avail : List MemberState) (ents logs : List String) (k : Nat)
      (e : String), e ∈ ents → (∀ st ∈ avail, st.1 ≠ e) →
    e ∈ (pruneGo fuel u avail ents logs k).2.1 := by
  induction fuel with
  | zero =>
    intro u avail ents logs k e he _
    exact he
  | succ n ih =>
    intro u avail ents logs k e he hav
    rw [pruneGo]
    split
    · next h =>
      split
      · apply ih
        · exact (List.mem_erase_of_ne
            (Ne.symm (hav _ (List.get_mem avail k h)))).mpr he
        · intro st' hst'
          exact hav st' (List.mem_of_mem_erase hst')
      · exact ih _ _ _ _ _ _ he hav
    · exact he

/-- When every available state's unit matches the aggregate's unit, the
unit-compatibility pass is the identity: nothing is removed, nothing logged. -/
theorem pruneGo_all_match (fuel : Nat) :
    ∀ (u : Option String) (avail : List MemberState) (ents logs : List String) (k : Nat),
    (∀ st ∈ avail, st.2.attrUnit = u) →
    pruneGo fuel u avail ents logs k = (avail, ents, logs) := by
  induction fuel with
  | zero =>
    intro u avail ents logs k _
    rfl
  | succ n ih =>
    intro u avail ents logs k hall
    rw [pruneGo]
    split
    · next h =>
      rw [if_neg (fun hne => hne (hall _ (List.get_mem avail k h)))]
      exact ih u avail ents logs (k + 1) hall
    · rfl

/-- The membership list after a recomputation is exactly the one produced by
the unit-compatibility pass, whether or not the summation raised. -/
theorem recompute_from_entities (s : GroupedSensor) (avail : List MemberState) :
    (recompute_from s avail).sensor.entities =
      (pruneMismatches s.unit avail s.entities).2.1 := by
  unfold recompute_from
  split <;> rfl

/-- Whenever a recomputation publishes, the published action is the rounded
decimal sum with the force flag set. -/
theorem recompute_publish_shape (s : GroupedSensor) (registry : String → Option StateBody)
    (p : PublishAction) (h : (on_state_change s registry).publish = some p) :
    ∃ q : Rat, p = { value := roundPy q s.roundingDigits, forceRefresh := true } := by
  unfold on_state_change recompute_from at h
  split at h
  · exact absurd h (by simp)
  · next summed heq =>
    refine ⟨summed, ?_⟩
    simpa using h.symm

/-! ### Helper lemmas about the available-state pipeline -/

/-- Pointwise characterization of the lines 193-197 pipeline as one
`filterMap` over the membership list. -/
theorem availableStates_eq (ents : List String) (reg : String → Option StateBody) :
    availableStates ents reg = ents.filterMap (fun eid =>
      match reg eid with
      | none => none
      | some b => if ignoredState b.state then none else some (eid, b)) := by
  unfold availableStates memberStates
  rw [List.filterMap_map, List.filter_filterMap]
  refine congrArg (fun g => List.filterMap g ents) (funext fun eid => ?_)
  cases hr : reg eid with
  | none => simp [Function.comp, hr, Option.filter]
  | some b =>
    cases hi : ignoredState b.state with
    | true => simp [Function.comp, hr, Option.filter, hi]
    | false => simp [Function.comp, hr, Option.filter, hi]

/-- Every available state comes from a registry hit keyed by its own entity id
and carries a non-marker value string. -/
theorem mem_availableStates {ents : List String} {reg : String → Option StateBody}
    {st : MemberState} (h : st ∈ availableStates ents reg) :
    reg st.1 = some st.2 ∧ ignoredState st.2.state = false := by
  rw [availableStates_eq] at h
  rw [List.mem_filterMap] at h
  obtain ⟨eid, _, he⟩ := h
  cases hr : reg eid with
  | none =>
    rw [hr] at he
    exact absurd he (by simp)
  | some b =>
    rw [hr] at he
    dsimp only at he
    cases hi : ignoredState b.state with
    | true =>
      rw [hi] at he
      exact absurd he (by simp)
    | false =>
      rw [hi] at he
      simp only [Bool.false_eq_true, if_false] at he
      obtain rfl := Option.some.inj he
      exact ⟨hr, hi⟩

end Powercalc

namespace Powercalc

/-- The registry with one entry dropped, for stating that a skipped member's
entry contributes nothing to a recomputation. -/
def regDrop (reg : String → Option StateBody) (e : String) : String → Option StateBody :=
  fun x => if x = e then none else reg x

/-- A registry entry that a recomputation skips: absent from the registry, or
carrying the unavailable/unknown marker. -/
def skippedEntry : Option StateBody → Bool
  | none => true
  | some b => ignoredState b.state

/-- Dropping a skipped member's registry entry leaves the available-state list
untouched. -/
theorem availableStates_regDrop (ents : List String) (reg : String → Option StateBody)
    (e : String) (hsk : skippedEntry (reg e) = true) :
    availableStates ents (regDrop reg e) = availableStates ents reg := by
  rw [availableStates_eq, availableStates_eq]
  refine congrArg (fun g => List.filterMap g ents) (funext fun eid => ?_)
  by_cases hx : eid = e
  · subst hx
    have h1 : regDrop reg eid eid = none := by
      unfold regDrop
      simp
    rw [h1]
    cases hr : reg eid with
    | none => rfl
    | some b =>
      have hib : ignoredState b.state = true := by
        unfold skippedEntry at hsk
        rw [hr] at hsk
        exact hsk
      dsimp only
      rw [hib]
      simp
  · have h2 : regDrop reg e eid = reg eid := by
      unfold regDrop
      rw [if_neg hx]
    rw [h2]

end Powercalc

namespace Powercalc

/-- C4: after any single operation — recomputation, restoration, reset — the
member list is a subsequence of the one before it (order preserved, never
grows), and when no available state has a mismatching unit a recomputation
leaves the membership unchanged, so shrinking happens only on unit mismatch. -/
theorem c4_member_set_only_shrinks :
    ∀ (s : GroupedSensor) (registry : String → Option StateBody)
      (lastState : Option StateStr) (now : Nat),
    List.Sublist (on_state_change s registry).sensor.entities s.entities
    ∧ (async_added_to_hass s lastState).entities = s.entities
    ∧ (async_reset_energy s now).sensor.entities = s.entities
    ∧ ((∀ st ∈ availableStates s.entities registry, st.2.attrUnit = s.unit) →
        (on_state_change s registry).sensor.entities = s.entities) := by
  intro s registry lastState now
  refine ⟨?_, ?_, rfl, ?_⟩
  · unfold on_state_change
    rw [recompute_from_entities]
    unfold pruneMismatches
    exact pruneGo_entities_sublist _ _ _ _ _ _
  · cases lastState <;> rfl
  · intro hall
    unfold on_state_change
    rw [recompute_from_entities]
    unfold pruneMismatches
    rw [pruneGo_all_match _ _ _ _ _ _ hall]

def c4Sensor : GroupedSensor := GroupedPowerSensor.init "grp4" ["x1"] "sensor.grp4" {}

def c4Registry : String → Option StateBody := fun e =>
  if e = "x1" then some { state := StateStr.num 1, attrUnit := some "W" } else none

/-- Witness for C4 at a concrete sensor and registry in which every available
state's unit matches: the membership survives a recomputation unchanged. -/
theorem c4_member_set_only_shrinks_witness :
    (on_state_change c4Sensor c4Registry).sensor.entities = c4Sensor.entities :=
  (c4_member_set_only_shrinks c4Sensor c4Registry none 0).2.2.2 (by decide)

/-- C5: one reset invocation on an aggregate with N members issues exactly N
outbound reset commands — one per member, each carrying the integration's
domain and reset service, exactly one per member when the membership has no
duplicates — and unconditionally stamps the aggregate's last-reset timestamp
with the current time and writes its state within the same invocation (the
commands are emitted as fire-and-forget data, so no command outcome can reach
the timestamp or the write). -/
theorem c5_reset_cascade :
    ∀ (s : GroupedSensor) (now : Nat),
    (async_reset_energy s now).commands.length = s.entities.length
    ∧ (async_reset_energy s now).commands.map ServiceCall.targetEntityId = s.entities
    ∧ (∀ c ∈ (async_reset_energy s now).commands,
        c.domain = DOMAIN ∧ c.service = SERVICE_RESET_ENERGY)
    ∧ (s.entities.Nodup → ∀ e ∈ s.entities,
        ((async_reset_energy s now).commands.map ServiceCall.targetEntityId).count e = 1)
    ∧ (async_reset_energy s now).sensor.lastReset = some now
    ∧ (async_reset_energy s now).wrote = true := by
  intro s now
  have hmap : (async_reset_energy s now).commands.map ServiceCall.targetEntityId
      = s.entities := by
    unfold async_reset_energy
    rw [List.map_map]
    exact List.map_id'' (fun _ => rfl) _
  refine ⟨?_, hmap, ?_, ?_, rfl, rfl⟩
  · unfold async_reset_energy
    simp
  · intro c hc
    unfold async_reset_energy at hc
    simp only [List.mem_map] at hc
    obtain ⟨eid, _, rfl⟩ := hc
    exact ⟨rfl, rfl⟩
  · intro hnd e he
    rw [hmap]
    exact List.count_eq_one_of_mem hnd he

def c5Sensor : GroupedSensor :=
  GroupedEnergySensor.init "grp5" ["u1", "u2"] "sensor.grp5"
    { energySensorUnitScale := some EnergyScale.kilo }

/-- Witness for C5 at a two-member energy aggregate: the member "u1" is
targeted by exactly one command, and that command carries the reset service. -/
theorem c5_reset_cascade_witness :
    ((async_reset_energy c5Sensor 7).commands.map ServiceCall.targetEntityId).count "u1" = 1
    ∧ ({ domain := DOMAIN, service := SERVICE_RESET_ENERGY, targetEntityId := "u1" } :
        ServiceCall).service = SERVICE_RESET_ENERGY :=
  ⟨(c5_reset_cascade c5Sensor 7).2.2.2.1 (by decide) "u1" (by decide),
   ((c5_reset_cascade c5Sensor 7).2.2.1 _ (by decide)).2⟩

/-- C6: when a persisted value exists at attach time it seeds the published
native value exactly, before any live event; when none exists, the value of a
freshly constructed sensor (base constructor or either factory) stays unset
through attachment. -/
theorem c6_restoration_seeds_persisted_value :
    ∀ (s : GroupedSensor) (v : StateStr),
    (async_added_to_hass s (some v)).nativeValue = some (NativeValue.strVal v)
    ∧ (async_added_to_hass s none).nativeValue = s.nativeValue
    ∧ (∀ (name entityId : String) (entities : List String) (cfg : SensorConfig)
        (uid : Option String) (rd : Option Nat),
        (async_added_to_hass (GroupedSensor.init name entities entityId cfg uid rd)
          none).nativeValue = none)
    ∧ (∀ (name entityId : String) (ids : List String) (cfg : SensorConfig),
        (async_added_to_hass (create_grouped_power_sensor name entityId cfg ids)
          none).nativeValue = none)
    ∧ (∀ (name entityId : String) (ids : List String) (cfg : SensorConfig),
        (async_added_to_hass (create_grouped_energy_sensor name entityId cfg ids)
          none).nativeValue = none) := by
  intro s v
  exact ⟨rfl, rfl, fun _ _ _ _ _ _ => rfl, fun _ _ _ _ => rfl, fun _ _ _ _ => rfl⟩

end Powercalc

namespace Powercalc

/-- C7: the membership selection returns exactly the entity ids of the
candidates that pass every supplied exclusion filter, are not grouped sensors
themselves, and satisfy the capability test, in the candidates' original order
(the filter-then-map normal form); membership in the result is characterized
pointwise; and when no candidate qualifies the result is the empty list rather
than an error.  The function is pure, so it has no side effects, and the
caller's filter list is only copied, never mutated. -/
theorem c7_membership_filter :
    ∀ (pool : List PoolEntity) (default_filters : List (PoolEntity → Bool))
      (className : PoolEntity → Bool),
    get_filtered_entity_ids_by_class pool default_filters className
      = (pool.filter (fun x =>
          default_filters.all (fun f => f x) && !x.isGroupedSensor && className x)).map
            PoolEntity.entityId
    ∧ (∀ eid, eid ∈ get_filtered_entity_ids_by_class pool default_filters className ↔
        ∃ x, x ∈ pool
          ∧ (default_filters.all (fun f => f x) && !x.isGroupedSensor && className x) = true
          ∧ x.entityId = eid)
    ∧ ((∀ x ∈ pool,
          (default_filters.all (fun f => f x) && !x.isGroupedSensor && className x) = false) →
        get_filtered_entity_ids_by_class pool default_filters className = []) := by
  intro pool dfs cls
  have hp : ∀ x ∈ pool,
      ((dfs ++ [fun elm => !elm.isGroupedSensor, fun elm => cls elm]).all (fun f => f x))
        = (dfs.all (fun f => f x) && !x.isGroupedSensor && cls x) := by
    intro x _
    simp [List.all_append, Bool.and_assoc]
  have h1 : get_filtered_entity_ids_by_class pool dfs cls
      = (pool.filter (fun x =>
          dfs.all (fun f => f x) && !x.isGroupedSensor && cls x)).map PoolEntity.entityId := by
    unfold get_filtered_entity_ids_by_class
    dsimp only
    rw [List.filter_congr hp]
  refine ⟨h1, ?_, ?_⟩
  · intro eid
    rw [h1]
    simp only [List.mem_map, List.mem_filter]
    constructor
    · rintro ⟨x, ⟨hx, hq⟩, hid⟩
      exact ⟨x, hx, hq, hid⟩
    · rintro ⟨x, hx, hq, hid⟩
      exact ⟨x, ⟨hx, hq⟩, hid⟩
  · intro hall
    rw [h1, List.filter_eq_nil_iff.mpr (fun a ha => by rw [hall a ha]; exact Bool.false_ne_true)]
    rfl

def c7Pool : List PoolEntity := [{ entityId := "v1", isGroupedSensor := true }]

/-- Witness for C7: a pool whose only candidate is itself a grouped sensor
yields the empty selection. -/
theorem c7_membership_filter_witness :
    get_filtered_entity_ids_by_class c7Pool [] (fun _ => true) = [] :=
  (c7_membership_filter c7Pool [] (fun _ => true)).2.2 (by decide)

/-- C8: a member whose registry entry is absent or carries the
unavailable/unknown marker is skipped for the current recomputation only: the
whole observable outcome is the same as if the entry were absent (so it
contributes nothing to the sum, the logs, or the published value), and the
member is still in the membership list afterwards. -/
theorem c8_skipped_member_frame :
    ∀ (s : GroupedSensor) (registry : String → Option StateBody) (e : String),
    e ∈ s.entities → skippedEntry (registry e) = true →
    on_state_change s registry = on_state_change s (regDrop registry e)
    ∧ e ∈ (on_state_change s registry).sensor.entities := by
  intro s registry e he hsk
  constructor
  · unfold on_state_change
    rw [availableStates_regDrop s.entities registry e hsk]
  · unfold on_state_change
    rw [recompute_from_entities]
    unfold pruneMismatches
    apply pruneGo_keeps_member _ _ _ _ _ _ _ he
    intro st hst
    intro heq
    obtain ⟨hreg, hig⟩ := mem_availableStates hst
    rw [heq] at hreg
    unfold skippedEntry at hsk
    rw [hreg] at hsk
    dsimp only at hsk
    rw [hig] at hsk
    exact Bool.false_ne_true hsk

def c8Sensor : GroupedSensor := GroupedPowerSensor.init "grp8" ["s1", "s2"] "sensor.grp8" {}

def c8Registry : String → Option StateBody := fun e =>
  if e = "s1" then some { state := StateStr.num 5, attrUnit := some "W" }
  else if e = "s2" then some { state := StateStr.unavailable, attrUnit := none }
  else none

/-- Witness for C8: with member "s1" reporting 5 W and member "s2"
unavailable, the recomputation outcome equals the one with "s2" dropped from
the registry, and "s2" stays a member. -/
theorem c8_skipped_member_frame_witness :
    on_state_change c8Sensor c8Registry = on_state_change c8Sensor (regDrop c8Registry "s2")
    ∧ "s2" ∈ (on_state_change c8Sensor c8Registry).sensor.entities :=
  c8_skipped_member_frame c8Sensor c8Registry "s2" (by decide) (by decide)

/-- C9 (amended): every recomputation that completes its summation — the
decimal sum of the retained available values exists — ends by publishing the
rounded sum with the force flag set, even when the value is numerically
unchanged; a recomputation whose summation raises publishes nothing. -/
theorem c9_publish_always_forced :
    ∀ (s : GroupedSensor) (registry : String → Option StateBody),
    (∀ q : Rat,
      sumDecimals (pruneMismatches s.unit (availableStates s.entities registry)
          s.entities).1 = some q →
      (on_state_change s registry).publish
        = some { value := roundPy q s.roundingDigits, forceRefresh := true })
    ∧ (sumDecimals (pruneMismatches s.unit (availableStates s.entities registry)
          s.entities).1 = none →
      (on_state_change s registry).publish = none) := by
  intro s registry
  constructor
  · intro q hq
    unfold on_state_change recompute_from
    rw [hq]
  · intro hq
    unfold on_state_change recompute_from
    rw [hq]

def c9wSensor : GroupedSensor := GroupedPowerSensor.init "grp9w" ["t2"] "sensor.grp9w" {}

def c9wRegistry : String → Option StateBody := fun e =>
  if e = "t2" then some { state := StateStr.num 5, attrUnit := some "W" } else none

def c9wRegistryBad : String → Option StateBody := fun e =>
  if e = "t2" then some { state := StateStr.unparseable "idle", attrUnit := some "W" }
  else none

/-- Witness for the amended C9 at a one-member aggregate: with the member
reporting 5 W the summation completes and the forced publish of the rounded
sum happens; with the member reporting an unparseable string the summation
raises and nothing is published. -/
theorem c9_publish_always_forced_witness :
    (on_state_change c9wSensor c9wRegistry).publish
      = some { value := roundPy 5 c9wSensor.roundingDigits, forceRefresh := true }
    ∧ (on_state_change c9wSensor c9wRegistryBad).publish = none :=
  ⟨(c9_publish_always_forced c9wSensor c9wRegistry).1 5 (by decide),
   (c9_publish_always_forced c9wSensor c9wRegistryBad).2 (by decide)⟩

def c9Sensor : GroupedSensor := GroupedPowerSensor.init "grp9" ["t1"] "sensor.grp9" {}

def c9Registry : String → Option StateBody := fun e =>
  if e = "t1" then some { state := StateStr.unparseable "boom", attrUnit := some "W" }
  else none

/-- C9 counterexample to the claim as stated: a recomputation in which the
only member's matching-unit state does not parse as a number raises out of the
summation and therefore does not end by publishing at all. -/
theorem c9_recomputation_without_publish :
    (on_state_change c9Sensor c9Registry).publish = none := by decide

/-- C10: when the sensor configuration has no precision entry for the relevant
kind, each factory passes the missing lookup (`None`) as the rounding digit
count — overriding the constructor's own default of 2 — and every publishing
recomputation of such a sensor rounds the decimal sum to a whole number
(a Python int) rather than to two digits. -/
theorem c10_missing_precision_rounds_to_integer :
    ∀ (cfg : SensorConfig), cfg.powerSensorPrecision = none →
    cfg.energySensorPrecision = none →
    ∀ (name entityId : String) (ids : List String) (registry : String → Option StateBody),
    (create_grouped_power_sensor name entityId cfg ids).roundingDigits = none
    ∧ (create_grouped_energy_sensor name entityId cfg ids).roundingDigits = none
    ∧ (GroupedSensor.init name ids entityId cfg).roundingDigits = some 2
    ∧ (∀ p, (on_state_change (create_grouped_power_sensor name entityId cfg ids)
          registry).publish = some p → ∃ z : Int, p.value = NativeValue.intVal z)
    ∧ (∀ p, (on_state_change (create_grouped_energy_sensor name entityId cfg ids)
          registry).publish = some p → ∃ z : Int, p.value = NativeValue.intVal z) := by
  intro cfg hp hep name entityId ids registry
  refine ⟨hp, hep, rfl, ?_, ?_⟩
  · intro p hpub
    obtain ⟨q, rfl⟩ := recompute_publish_shape _ registry p hpub
    refine ⟨roundHalfEvenInt q, ?_⟩
    show roundPy q (create_grouped_power_sensor name entityId cfg ids).roundingDigits = _
    have hr : (create_grouped_power_sensor name entityId cfg ids).roundingDigits = none := hp
    rw [hr]
    rfl
  · intro p hpub
    obtain ⟨q, rfl⟩ := recompute_publish_shape _ registry p hpub
    refine ⟨roundHalfEvenInt q, ?_⟩
    show roundPy q (create_grouped_energy_sensor name entityId cfg ids).roundingDigits = _
    have hr : (create_grouped_energy_sensor name entityId cfg ids).roundingDigits = none := hep
    rw [hr]
    rfl

def c10Registry : String → Option StateBody := fun e =>
  if e = "w1" then some { state := StateStr.num (7/2), attrUnit := some "W" } else none

/-- Witness for C10: a power aggregate built from an empty configuration over
a member reporting 3.5 W publishes the int 4 (half-to-even, zero fractional
digits). -/
theorem c10_missing_precision_rounds_to_integer_witness :
    ∃ z : Int, ({ value := NativeValue.intVal 4, forceRefresh := true } :
      PublishAction).value = NativeValue.intVal z :=
  (c10_missing_precision_rounds_to_integer {} rfl rfl "g10" "sensor.g10" ["w1"]
      c10Registry).2.2.2.1
    { value := NativeValue.intVal 4, forceRefresh := true } (by decide)

end Powercalc

namespace Powercalc

/-- Modelled from the spec's words, as the comparison point for the aggregate
formula: "S", the exact decimal sum over the members that are present in the
registry, carry a parseable non-marker value, and whose unit matches the
aggregate's fixed unit. -/
def claimEligibleSum (s : GroupedSensor) (registry : String → Option StateBody) : Rat :=
  (s.entities.filterMap (fun eid =>
    match registry eid with
    | some b =>
      if !ignoredState b.state && (b.attrUnit == s.unit) then decimalParse b.state
      else none
    | none => none)).sum

def c1Sensor : GroupedSensor := GroupedPowerSensor.init "grp1" ["p1", "p2"] "sensor.grp1" {}

def c1Registry : String → Option StateBody := fun e =>
  if e = "p1" then some { state := StateStr.num 3, attrUnit := some "X" }
  else if e = "p2" then some { state := StateStr.num 4, attrUnit := some "X" }
  else none

/-- C1 fails on the code: with two adjacent members both reporting unit "X"
against the aggregate's "W", the removal loop's iterator skips the second one
after removing the first, so the published value is 4 — the skipped
mismatching member's value — while round(sum(S), precision) over the
unit-matching member set S (which is empty here) is 0. -/
theorem c1_aggregate_diverges_from_spec_sum :
    (on_state_change c1Sensor c1Registry).publish
      = some { value := NativeValue.decVal 4, forceRefresh := true }
    ∧ roundPy (claimEligibleSum c1Sensor c1Registry) c1Sensor.roundingDigits
      = NativeValue.decVal 0
    ∧ NativeValue.decVal 4 ≠ NativeValue.decVal 0 := by decide

def c2Sensor : GroupedSensor := GroupedPowerSensor.init "grp2" ["q1"] "sensor.grp2" {}

def c2Registry : String → Option StateBody := fun e =>
  if e = "q1" then some { state := StateStr.unparseable "plugged", attrUnit := some "W" }
  else none

def c2RegistryUnavailable : String → Option StateBody := fun e =>
  if e = "q1" then some { state := StateStr.unavailable, attrUnit := some "W" }
  else none

/-- C2 fails on the code: a member whose matching-unit state string does not
parse as a number makes `Decimal(state.state)` raise, so the recomputation
aborts — nothing is published and the native value stays unset — whereas the
same member reported as unavailable is skipped and the recomputation completes
by publishing 0.  The two situations are observably different, so an
unparseable value is not treated the same as an unavailable one. -/
theorem c2_unparseable_aborts_recomputation :
    (on_state_change c2Sensor c2Registry).publish = none
    ∧ (on_state_change c2Sensor c2Registry).sensor.nativeValue = none
    ∧ (on_state_change c2Sensor c2RegistryUnavailable).publish
      = some { value := NativeValue.decVal 0, forceRefresh := true } := by decide

def c3Sensor : GroupedSensor := GroupedPowerSensor.init "grp3" ["r1", "r2"] "sensor.grp3" {}

def c3Registry : String → Option StateBody := fun e =>
  if e = "r1" then some { state := StateStr.num 1, attrUnit := some "X" }
  else if e = "r2" then some { state := StateStr.num 2, attrUnit := some "X" }
  else none

/-- C3 fails on the code: with two adjacent mismatching members "r1" and "r2",
only "r1" is excluded, logged and removed; the loop skips "r2", which stays in
the membership list, is never logged, and its value 2 is included in the
published sum of that same recomputation. -/
theorem c3_adjacent_mismatch_skipped :
    (on_state_change c3Sensor c3Registry).sensor.entities = ["r2"]
    ∧ (on_state_change c3Sensor c3Registry).errorLogs = ["r1"]
    ∧ (on_state_change c3Sensor c3Registry).publish
      = some { value := NativeValue.decVal 2, forceRefresh := true } := by decide

end Powercalc
